import Mathlib

/-!
Verification of the LocalDB query layer (src/db.js).

This file gives a shallow embedding of the `LocalStatement` query engine:
the condition evaluator (`evaluateConditions` / `applyFilter`), the field
comparator (`compareValues`), the builder methods, `execute`, and the
result pipeline inside the `fetchAll` success handler (filter, sort,
paginate, project).  JavaScript values are modelled by the inductive
`Value`; records are association lists of field names to values; thrown
exceptions are modelled with `Except String`.

Modelling notes, fixed once here:
* JS reference equality on arrays/objects is modelled structurally; every
  concrete value appearing in the claims is a scalar or an array of
  scalars, where the two notions agree on the comparisons performed.
* Numeric coercion of strings and arrays (for example `"5" - 2`) is not
  modelled: `jsNumber` yields `none` (NaN) for them.  The spec declares
  mixed-type comparisons undefined behaviour and no claim exercises them.
* `localeCompare` is modelled by code-point order, which agrees with the
  default locale on the ASCII data of the claims; only its sign is used.
* In the source, `evaluateConditions` invokes `this.applyFilters`, but the
  class only defines `applyFilter`; reading the missing property yields
  `undefined` and calling it throws a `TypeError`.  The embedding makes
  this explicit: every leaf evaluation produces that error.
-/

/-- A JavaScript value as manipulated by db.js: null, undefined, booleans,
numbers (the claims only use integers), strings, and arrays. -/
inductive Value where
  | vNull
  | vUndefined
  | vBool (b : Bool)
  | vNum (n : Int)
  | vStr (s : String)
  | vArr (elems : List Value)
  deriving Repr

mutual

/-- Structural equality of values, modelling the `===` / SameValueZero
comparisons of db.js (no NaN value exists in the model). -/
def Value.beq : Value → Value → Bool
  | .vNull, .vNull => true
  | .vUndefined, .vUndefined => true
  | .vBool a, .vBool b => a == b
  | .vNum a, .vNum b => a == b
  | .vStr a, .vStr b => a == b
  | .vArr xs, .vArr ys => Value.beqList xs ys
  | _, _ => false

/-- Pointwise equality of value lists, used by `Value.beq` on arrays. -/
def Value.beqList : List Value → List Value → Bool
  | [], [] => true
  | x :: xs, y :: ys => Value.beq x y && Value.beqList xs ys
  | _, _ => false

end

instance : BEq Value := ⟨Value.beq⟩

/-- A record (a plain JS object): an association list from field names to
values, in insertion order, without duplicate keys in practice. -/
abbrev Record := List (String × Value)

/-- Field read `item[field]`: the stored value, or `undefined` when the
record has no such field. -/
def getField (r : Record) (f : String) : Value :=
  match r.find? (fun p => p.1 == f) with
  | some p => p.2
  | none => .vUndefined

/-- Own-property test, modelling `Object.prototype.hasOwnProperty.call`
(and the `key in item` test of the projection stage, which coincides with
it on plain records). -/
def hasOwn (r : Record) (f : String) : Bool :=
  (r.find? (fun p => p.1 == f)).isSome

/-- Property assignment `obj[key] = v`: overwrite in place when the key
exists (keeping its position), otherwise append, as JS objects do. -/
def setField (r : Record) (k : String) (v : Value) : Record :=
  if hasOwn r k then r.map (fun p => if p.1 == k then (k, v) else p)
  else r ++ [(k, v)]

/-- Lower-casing of a string, modelling `String.prototype.toLowerCase` on
the ASCII operator tokens used by db.js. -/
def jsToLowerCase (s : String) : String := ⟨s.data.map Char.toLower⟩

/-- Numeric coercion used by the relational operators and by subtraction
in `compareValues`.  Numbers, booleans and null convert as in JS; strings
and arrays are not modelled (treated as NaN, see the header note) and
undefined is NaN. -/
def jsNumber : Value → Option Int
  | .vNum n => some n
  | .vBool b => some (if b then 1 else 0)
  | .vNull => some 0
  | _ => none

/-- The JS `<` comparison: both strings compare lexicographically by code
units, otherwise the operands are coerced to numbers and any NaN operand
makes the comparison false. -/
def jsLt (a b : Value) : Bool :=
  match a, b with
  | .vStr x, .vStr y => decide (x < y)
  | _, _ =>
    match jsNumber a, jsNumber b with
    | some x, some y => decide (x < y)
    | _, _ => false

/-- The JS `<=` comparison, with the same string/number split as `jsLt`
and false on NaN. -/
def jsLe (a b : Value) : Bool :=
  match a, b with
  | .vStr x, .vStr y => decide (x ≤ y)
  | _, _ =>
    match jsNumber a, jsNumber b with
    | some x, some y => decide (x ≤ y)
    | _, _ => false

/-- The `Array.isArray` test. -/
def jsIsArray : Value → Bool
  | .vArr _ => true
  | _ => false

/-- The `value.includes(compare)` membership test on arrays (SameValueZero,
structural here). -/
def jsIncludes (v : Value) (c : Value) : Bool :=
  match v with
  | .vArr elems => elems.contains c
  | _ => false

/-- String.prototype.replace with a plain string pattern: only the FIRST
occurrence of `pat` is replaced (the replacement ".*" contains no dollar
escapes).  Helper returning the text before and after that occurrence. -/
def findSplit (pat : List Char) : List Char → Option (List Char × List Char)
  | [] => if pat.isEmpty then some ([], []) else none
  | c :: rest =>
    if pat.isPrefixOf (c :: rest) then some ([], (c :: rest).drop pat.length)
    else
      match findSplit pat rest with
      | some (pre, post) => some (c :: pre, post)
      | none => none

/-- JS `s.replace(pat, rep)` for a string `pat`: replace the first
occurrence only; return `s` unchanged when `pat` does not occur. -/
def replaceFirst (s pat rep : String) : String :=
  match findSplit pat.data s.data with
  | some (pre, post) => ⟨pre ++ rep.data ++ post⟩
  | none => s

/-- A token of the regular-expression fragment db.js actually builds for
`like`: a literal character, a lone dot (any character), or the two
character sequence dot star (any run of characters).  Patterns produced by
the `%` translation consist only of these. -/
inductive RTok where
  | lit (c : Char)
  | anyChar
  | anyStar
  deriving Repr

/-- Scan a pattern string into tokens: ".*" becomes `anyStar`, a lone "."
becomes `anyChar`, everything else is a literal.  Other regex
metacharacters never arise from the `%` translation on the patterns the
claims use. -/
def parseRegex : List Char → List RTok
  | '.' :: '*' :: rest => .anyStar :: parseRegex rest
  | '.' :: rest => .anyChar :: parseRegex rest
  | c :: rest => .lit c :: parseRegex rest
  | [] => []

/-- Match the token list against a prefix of `s`, case-insensitively (the
"i" flag): the match may stop before the end of `s` (RegExp.test has no
end anchor). -/
def matchToks : List RTok → List Char → Bool
  | [], _ => true
  | .lit c :: ts, x :: xs => (c.toLower == x.toLower) && matchToks ts xs
  | .lit _ :: _, [] => false
  | .anyChar :: ts, _ :: xs => matchToks ts xs
  | .anyChar :: _, [] => false
  | .anyStar :: ts, s => (List.range (s.length + 1)).any (fun k => matchToks ts (s.drop k))

/-- The unanchored, case-insensitive `new RegExp(pattern, "i").test(s)`:
the pattern may match starting at any position of `s`. -/
def regexTest (pattern : String) (s : String) : Bool :=
  let toks := parseRegex pattern.data
  (List.range (s.length + 1)).any (fun k => matchToks toks (s.data.drop k))

/-- The `like` comparison of `applyFilter`, line 342 of db.js:
new RegExp(value.replace("%", ".*"), "i").test(compare).  Both operands
are strings in every use the claims make; a non-string pattern would throw
in JS and is not modelled. -/
def jsLikeTest (value : Value) (compare : Value) : Bool :=
  match value, compare with
  | .vStr p, .vStr s => regexTest (replaceFirst p "%" ".*") s
  | _, _ => false

/-- LocalStatement.applyFilter (db.js lines 324-346): dispatch on the
lower-cased operator token; unknown tokens fall through to false. -/
def applyFilter (compare : Value) (op : String) (value : Value) : Bool :=
  match jsToLowerCase op with
  | "=" => compare == value
  | "!=" => !(compare == value)
  | "<" => jsLt compare value
  | "<=" => jsLe compare value
  | ">" => jsLt value compare
  | ">=" => jsLe value compare
  | "in" => jsIsArray value && jsIncludes value compare
  | "within" => jsIsArray value && jsIncludes value compare
  | "like" => jsLikeTest value compare
  | _ => false

/-- A node of the condition structure consumed by `evaluateConditions`:
an array `[field, op, value]` is a leaf comparison, an object with an AND
(resp. OR) key holds a nested condition list, and any other object falls
through to false (db.js line 310). -/
inductive Cond where
  | leaf (field : String) (op : String) (value : Value)
  | andNode (cs : List Cond)
  | orNode (cs : List Cond)
  | other
  deriving Repr

/-- The error produced when `evaluateConditions` reaches a leaf: the
method name in `this.applyFilters(item[field], op, value)` (db.js line
300) does not exist on the class (the defined method is `applyFilter`),
so the call throws a TypeError. -/
def applyFiltersTypeError : String := "TypeError: this.applyFilters is not a function"

mutual

/-- The arrow function body of the `conditions.map` in
LocalStatement.evaluateConditions (db.js lines 296-311): a leaf calls the
nonexistent `this.applyFilters` and therefore throws; AND and OR recurse
with the corresponding flag (their results are combined with every
resp. some, inlined here so the recursion is structural); anything else
returns false. -/
def evalOneCondition (item : Record) : Cond → Except String Bool
  | .leaf _ _ _ => .error applyFiltersTypeError
  | .andNode cs =>
    match mapConditions item cs with
    | .error e => .error e
    | .ok results => .ok (results.all id)
  | .orNode cs =>
    match mapConditions item cs with
    | .error e => .error e
    | .ok results => .ok (results.any id)
  | .other => .ok false

/-- The `conditions.map(condition => ...)` of db.js line 296, with a
thrown exception aborting the traversal at the first failing element as
in JS. -/
def mapConditions (item : Record) : List Cond → Except String (List Bool)
  | [] => .ok []
  | c :: cs =>
    match evalOneCondition item c, mapConditions item cs with
    | .ok b, .ok bs => .ok (b :: bs)
    | .error e, _ => .error e
    | _, .error e => .error e

end

/-- LocalStatement.evaluateConditions (db.js lines 295-314): map the
evaluation over the condition list, then combine with
results.some(Boolean) when `isOr` and results.every(Boolean) otherwise. -/
def evaluateConditions (item : Record) (conditions : List Cond) (isOr : Bool) :
    Except String Bool :=
  match mapConditions item conditions with
  | .error e => .error e
  | .ok results => .ok (if isOr then results.any id else results.all id)

/-- The statement state accumulated by the builder methods, i.e. the
fields set by the LocalStatement constructor (db.js lines 85-97).  The
external store handle `db` and the table name are not part of the query
engine and are omitted.  `resultOffset` and `resultLimit` are clamped
non-negative (resp. at least 1) by their setters, so they are modelled as
naturals; `values` holds the bound object or `none` for the initial null. -/
structure LocalStatement where
  action : Option String
  values : Option Record
  conditions : List Cond
  selectedFields : Option (List String)
  sortField : Option String
  sortDir : String
  resultLimit : Option Nat
  resultOffset : Nat
  deriving Repr

namespace LocalStatement

/-- Constant "asc" (db.js line 76). -/
def SORT_ASC : String := "asc"

/-- Constant "desc" (db.js line 77). -/
def SORT_DESC : String := "desc"

/-- The constructor defaults (db.js lines 85-97): no action, null values,
empty conditions, no projection, no sort field, ascending direction, no
limit, offset 0. -/
def init : LocalStatement :=
  { action := none
    values := none
    conditions := []
    selectedFields := none
    sortField := none
    sortDir := SORT_ASC
    resultLimit := none
    resultOffset := 0 }

/-- LocalStatement.insert (db.js lines 105-109). -/
def insert (st : LocalStatement) (values : Record) : LocalStatement :=
  { st with action := some "insert", values := some values }

/-- LocalStatement.select (db.js lines 116-124), in its Array.isArray
branch; the string and default normalizations are not exercised by any
claim. -/
def select (st : LocalStatement) (fields : List String) : LocalStatement :=
  { st with action := some "select", selectedFields := some fields }

/-- LocalStatement.update (db.js lines 132-136). -/
def update (st : LocalStatement) (values : Record) : LocalStatement :=
  { st with action := some "update", values := some values }

/-- LocalStatement.delete (db.js lines 143-146): sets the action only,
leaving `values` untouched. -/
def delete (st : LocalStatement) : LocalStatement :=
  { st with action := some "delete" }

/-- LocalStatement.bindValues (db.js lines 154-157). -/
def bindValues (st : LocalStatement) (values : Record) : LocalStatement :=
  { st with values := some values }

/-- LocalStatement.where (db.js lines 165-168); `where` is a reserved
word in Lean, hence the name. -/
def whereCond (st : LocalStatement) (conditions : List Cond) : LocalStatement :=
  { st with conditions := conditions }

/-- LocalStatement.orderBy (db.js lines 177-181).  Note line 179: the
sort direction is assigned SORT_DESC.toLowerCase() regardless of the
`direction` argument, which is ignored. -/
def orderBy (st : LocalStatement) (field : String) (_direction : String) : LocalStatement :=
  { st with sortField := some field, sortDir := jsToLowerCase SORT_DESC }

/-- LocalStatement.limit (db.js lines 189-192): Math.max(1, n). -/
def limit (st : LocalStatement) (n : Int) : LocalStatement :=
  { st with resultLimit := some (max 1 n).toNat }

/-- LocalStatement.offset (db.js lines 200-203): Math.max(0, n). -/
def offset (st : LocalStatement) (n : Int) : LocalStatement :=
  { st with resultOffset := (max 0 n).toNat }

end LocalStatement

/-- The request issued to the backing object store by `execute`:
store.add, store.put, or store.delete keyed by `values.id`. -/
inductive ExecRequest where
  | add (values : Option Record)
  | put (values : Option Record)
  | del (key : Value)
  deriving Repr

/-- The error thrown by `this.values.id` (db.js line 226) when `values`
is still null. -/
def valuesNullTypeError : String := "TypeError: Cannot read properties of null (reading id)"

/-- LocalStatement.execute (db.js lines 210-236): dispatch on the action.
For "delete" the store key is read from `this.values.id`, which throws a
TypeError when `values` is null; an unset or unknown action rejects with
"Invalid action".  The accumulated `conditions` are never consulted.  The
physical store operation itself is external; its request is returned. -/
def execute (st : LocalStatement) : Except String ExecRequest :=
  match st.action with
  | some "insert" => .ok (.add st.values)
  | some "update" => .ok (.put st.values)
  | some "delete" =>
    match st.values with
    | none => .error valuesNullTypeError
    | some obj => .ok (.del (getField obj "id"))
  | _ => .error "Invalid action"

/-- Sign of String.prototype.localeCompare, modelled by code-point order
(see the header note); only the sign is consumed by the sort. -/
def localeCompare (a b : String) : Int :=
  if a < b then -1 else if b < a then 1 else 0

/-- LocalStatement.compareValues (db.js lines 355-374) with the statement
fields it reads passed explicitly: result 0 when either record lacks the
sort field; locale comparison when both values are strings; numeric
subtraction otherwise, where a NaN operand gives a NaN result (`none`).
The direction test is `this.sortDir === SORT_ASC`. -/
def compareValues (sortField sortDir : String) (a b : Record) : Option Int :=
  if !(hasOwn a sortField) || !(hasOwn b sortField) then some 0
  else
    let valA := getField a sortField
    let valB := getField b sortField
    match valA, valB with
    | .vStr sa, .vStr sb =>
      some (if sortDir == LocalStatement.SORT_ASC
            then localeCompare sa sb else localeCompare sb sa)
    | _, _ =>
      match jsNumber valA, jsNumber valB with
      | some x, some y =>
        some (if sortDir == LocalStatement.SORT_ASC then x - y else y - x)
      | _, _ => none

/-- The comparator closure `(a, b) => this.compareValues(a, b)` as used by
Array.prototype.sort: the ECMAScript SortCompare step maps a NaN
comparator result to +0. -/
def sortComparator (sortField sortDir : String) (a b : Record) : Int :=
  (compareValues sortField sortDir a b).getD 0

/-- Insert `x` into `l` before the first element `y` with `le x y`,
after all earlier ones: the insertion step of a stable sort. -/
def insertStable (le : α → α → Bool) (x : α) : List α → List α
  | [] => [x]
  | y :: ys => if le x y then x :: y :: ys else y :: insertStable le x ys

/-- Stable insertion sort.  Array.prototype.sort is required to be stable
(ES2019); for a consistent comparator every stable sort produces the same
sequence, so this models `results.sort(comparator)` extensionally.  An
element stays before a later one iff the comparator is at most 0. -/
def stableSort (le : α → α → Bool) : List α → List α
  | [] => []
  | x :: xs => insertStable le x (stableSort le xs)

/-- JS Array.prototype.slice(start, end): the elements with indices in
[start, end), or [start, length) when `end` is undefined.  The receiver
is not modified; negative indices never arise (see `LocalStatement`). -/
def jsSlice (l : List α) (start : Nat) (stop : Option Nat) : List α :=
  match stop with
  | some e => (l.take e).drop start
  | none => l.drop start

/-- The pagination stage of fetchAll (db.js lines 264-268):
results.slice(offset, limit ? offset + limit : undefined).  A limit set
through `LocalStatement.limit` is at least 1, hence truthy. -/
def paginate (off : Nat) (lim : Option Nat) (l : List α) : List α :=
  jsSlice l off (lim.map (fun m => off + m))

/-- The projection body of the select stage (db.js lines 272-277):
selectedFields.reduce((obj, key) => if key in item then obj[key] = item[key], {}). -/
def projectRecord (fields : List String) (item : Record) : Record :=
  fields.foldl
    (fun obj key => if hasOwn item key then setField obj key (getField item key) else obj)
    []

/-- Array.prototype.filter with a predicate that may throw: elements are
visited left to right into a fresh array and the first exception aborts
the traversal, as in results.filter(item => this.evaluateConditions(...)). -/
def filterRecords (p : Record → Except String Bool) : List Record → Except String (List Record)
  | [] => .ok []
  | x :: xs =>
    match p x, filterRecords p xs with
    | .ok b, .ok rest => .ok (if b then x :: rest else rest)
    | .error e, _ => .error e
    | _, .error e => .error e

/-- The result pipeline of the fetchAll success handler (db.js lines
249-281): filter when `conditions` is non-empty, then sort when a sort
field is set, then paginate, then project unless the first selected field
is "*".  The first component is the value passed to `resolve` (or the
rejection when the filter throws).  The second component tracks the final
contents of the array returned by store.getAll(): `results` aliases it
until the first copying operation, and Array.prototype.sort sorts in
place, so when `conditions` is empty an in-place sort reorders the raw
array itself; filter, slice and map all produce fresh arrays and never
touch it. -/
def runPipeline (st : LocalStatement) (raw : List Record) :
    Except String (List Record) × List Record :=
  let filterRes : Except String (List Record) :=
    if st.conditions.length > 0 then
      filterRecords (fun item => evaluateConditions item st.conditions false) raw
    else .ok raw
  match filterRes with
  | .error e => (.error e, raw)
  | .ok filtered =>
    let sorted :=
      match st.sortField with
      | some f => stableSort (fun a b => sortComparator f st.sortDir a b ≤ 0) filtered
      | none => filtered
    let rawAfter :=
      if st.conditions.length = 0 && st.sortField.isSome then sorted else raw
    let paged := paginate st.resultOffset st.resultLimit sorted
    let final :=
      match st.selectedFields with
      | some fields =>
        if fields.head? == some "*" then paged else paged.map (projectRecord fields)
      | none => paged
    (.ok final, rawAfter)

/-- Record {id:1, age:17, status:"active"} of end-to-end scenario 1. -/
def recId1 : Record := [("id", .vNum 1), ("age", .vNum 17), ("status", .vStr "active")]

/-- Record {id:2, age:20, status:"active"} of end-to-end scenario 1. -/
def recId2 : Record := [("id", .vNum 2), ("age", .vNum 20), ("status", .vStr "active")]

/-- Record {id:3, age:25, status:"inactive"} of end-to-end scenario 1. -/
def recId3 : Record := [("id", .vNum 3), ("age", .vNum 25), ("status", .vStr "inactive")]

/-- The raw record set of end-to-end scenario 1. -/
def scenarioRecords : List Record := [recId1, recId2, recId3]

/-- A statement carrying the scenario 1 conditions
where([["age", ">=", 18], ["status", "=", "active"]]). -/
def stmtScenario1 : LocalStatement :=
  LocalStatement.init.whereCond
    [.leaf "age" ">=" (.vNum 18), .leaf "status" "=" (.vStr "active")]

/-- An unfiltered two-record set used to observe the in-place sort. -/
def rawUnsorted : List Record := [[("a", .vNum 1)], [("a", .vNum 2)]]

/-- A statement with a sort field and no conditions: orderBy("a", "asc"). -/
def stmtSortOnly : LocalStatement :=
  LocalStatement.init.orderBy "a" LocalStatement.SORT_ASC

/-- A delete statement with where conditions but no bound values:
prepare(t).delete().where([["age", ">", 21]]). -/
def stmtDeleteWhere : LocalStatement :=
  (LocalStatement.init.delete).whereCond [.leaf "age" ">" (.vNum 21)]

/-- C1: on the scenario 1 record set with conditions
[["age", ">=", 18], ["status", "=", "active"]], the claim expects the
filter stage of fetchAll to keep exactly the record with id 2.  The code
instead throws: the first leaf reaches the nonexistent
this.applyFilters, so fetchAll rejects with a TypeError and produces no
record set at all (the raw array is left untouched). -/
theorem c1_filter_stage_throws :
    runPipeline stmtScenario1 scenarioRecords
      = (.error applyFiltersTypeError, scenarioRecords) := rfl

/-- C2: evaluating a leaf whose operator token is unrecognized through
evaluateConditions does not return false as claimed; it throws the
applyFilters TypeError like every other leaf.  The defined applyFilter
itself does fall through to false for the unknown token, confirming the
fail-closed dispatch the claim describes at the wrong call path. -/
theorem c2_unknown_operator_leaf_throws :
    evaluateConditions [("x", .vNum 1)] [.leaf "x" "unknownop" (.vNum 1)] false
        = .error applyFiltersTypeError ∧
    applyFilter (.vNum 1) "unknownop" (.vNum 1) = false := ⟨rfl, rfl⟩

/-- C3: after orderBy("age", "asc") the stored direction is "desc" -- the
caller-supplied direction is ignored (db.js line 179) -- and the
comparator on {age:1}, {age:2} returns +1, the sign-flipped descending
comparison, whereas the base ascending comparison the claim demands is
-1. -/
theorem c3_orderBy_ignores_direction :
    (LocalStatement.init.orderBy "age" LocalStatement.SORT_ASC).sortDir
        = LocalStatement.SORT_DESC ∧
    compareValues "age" (LocalStatement.init.orderBy "age" LocalStatement.SORT_ASC).sortDir
        [("age", .vNum 1)] [("age", .vNum 2)] = some 1 ∧
    compareValues "age" LocalStatement.SORT_ASC
        [("age", .vNum 1)] [("age", .vNum 2)] = some (-1) := ⟨rfl, rfl, rfl⟩

/-- C4: the leaf ["name", "like", "%an%"] does not behave as claimed.
Evaluating it through evaluateConditions throws the applyFilters
TypeError; and even the defined applyFilter returns false for BOTH
"Diana" and "Alice", because String.replace with a string pattern
translates only the first "%": the pattern becomes ".*an%", whose
trailing "%" is a literal character that neither name contains. -/
theorem c4_like_wildcard_matches_neither :
    evaluateConditions [("name", .vStr "Diana")] [.leaf "name" "like" (.vStr "%an%")] false
        = .error applyFiltersTypeError ∧
    replaceFirst "%an%" "%" ".*" = ".*an%" ∧
    applyFilter (.vStr "Diana") "like" (.vStr "%an%") = false ∧
    applyFilter (.vStr "Alice") "like" (.vStr "%an%") = false := ⟨rfl, rfl, rfl, rfl⟩

/-- C5 counterexample: the pipeline run is not pure with respect to the
raw input sequence.  With orderBy set and no conditions, the filter stage
is skipped, `results` still aliases the raw array, and the in-place
Array.prototype.sort reorders the raw input itself: after the run its
contents differ from the fetched order. -/
theorem c5_sort_mutates_raw_input :
    (runPipeline stmtSortOnly rawUnsorted).2 ≠ rawUnsorted := by
  have h : (runPipeline stmtSortOnly rawUnsorted).2
      = [[("a", Value.vNum 2)], [("a", Value.vNum 1)]] := rfl
  rw [h]
  simp [rawUnsorted, Value.vNum.injEq]

/-- C5 amended: the pipeline never mutates the records themselves, and
filtering, pagination and projection always produce fresh sequences; the
raw input sequence survives every run unchanged EXCEPT when a sort field
is set while the condition list is empty, in which case the in-place sort
reorders the raw array.  Stated: whenever an empty condition list implies
no sort field, the raw sequence after the run equals the input. -/
theorem c5_pipeline_pure_unless_unfiltered_sort
    (st : LocalStatement) (raw : List Record)
    (h : st.conditions = [] → st.sortField = none) :
    (runPipeline st raw).2 = raw := by
  unfold runPipeline
  cases hc : st.conditions with
  | nil =>
    have hs : st.sortField = none := h hc
    simp [hc, hs]
  | cons c cs =>
    simp only [hc]
    simp
    split
    · rfl
    · rfl

/-- C5 amended, witness: the initial statement (no conditions, no sort
field) leaves a one-record raw sequence unchanged. -/
theorem c5_pipeline_pure_unless_unfiltered_sort_witness :
    (LocalStatement.init.conditions = [] → LocalStatement.init.sortField = none) ∧
    (runPipeline LocalStatement.init [recId1]).2 = [recId1] :=
  ⟨fun _ => rfl,
   c5_pipeline_pure_unless_unfiltered_sort LocalStatement.init [recId1] (fun _ => rfl)⟩

/-- C6: for any sequence of length N, offset k and limit m ≥ 1, the
pagination stage keeps min(m, N - k) records (truncated subtraction is
exactly max(0, N - k)); with the limit unset it keeps N - k; and an
offset at or beyond the length yields the empty list rather than an
error. -/
theorem c6_pagination_length_and_overflow (l : List Record) (k m : Nat) (hm : 1 ≤ m) :
    (paginate k (some m) l).length = min m (l.length - k) ∧
    (paginate k none l).length = l.length - k ∧
    (l.length ≤ k → paginate k (some m) l = [] ∧ paginate k none l = []) := by
  refine ⟨?_, ?_, fun hk => ⟨?_, ?_⟩⟩
  · simp [paginate, jsSlice]
    omega
  · simp [paginate, jsSlice]
  · apply List.drop_eq_nil_of_le
    simp
    omega
  · simp [paginate, jsSlice]
    exact hk

/-- C6 witness: the scenario record set (N = 3) with offset 1 and
limit 2. -/
theorem c6_pagination_length_and_overflow_witness :
    1 ≤ 2 ∧
    ((paginate 1 (some 2) scenarioRecords).length = min 2 (scenarioRecords.length - 1) ∧
     (paginate 1 none scenarioRecords).length = scenarioRecords.length - 1 ∧
     (scenarioRecords.length ≤ 1 →
       paginate 1 (some 2) scenarioRecords = [] ∧ paginate 1 none scenarioRecords = [])) :=
  ⟨by decide, c6_pagination_length_and_overflow scenarioRecords 1 2 (by decide)⟩

/-- C7: for every record r, field f and non-array comparison value v, the
leaf comparison applyFilter(r[f], "in", v) -- and likewise "within" --
returns false regardless of the field value: Array.isArray(v) fails and
the conjunction short-circuits. -/
theorem c7_in_within_nonarray_false (r : Record) (f : String) (v : Value)
    (h : jsIsArray v = false) :
    applyFilter (getField r f) "in" v = false ∧
    applyFilter (getField r f) "within" v = false := by
  have e1 : applyFilter (getField r f) "in" v
      = (jsIsArray v && jsIncludes v (getField r f)) := rfl
  have e2 : applyFilter (getField r f) "within" v
      = (jsIsArray v && jsIncludes v (getField r f)) := rfl
  rw [e1, e2, h]
  simp

/-- C7 witness: the string "18-25" is not an array, so the membership
leaves on the age field of the scenario record evaluate false. -/
theorem c7_in_within_nonarray_false_witness :
    jsIsArray (.vStr "18-25") = false ∧
    (applyFilter (getField recId1 "age") "in" (.vStr "18-25") = false ∧
     applyFilter (getField recId1 "age") "within" (.vStr "18-25") = false) :=
  ⟨rfl, c7_in_within_nonarray_false recId1 "age" (.vStr "18-25") rfl⟩

/-- C8: for every record, an empty condition list evaluates true under
the implicit AND (results.every on an empty array) and false under OR
(results.some on an empty array); the nested {AND: []} and {OR: []}
nodes behave identically. -/
theorem c8_empty_and_true_empty_or_false (item : Record) :
    evaluateConditions item [] false = .ok true ∧
    evaluateConditions item [] true = .ok false ∧
    evalOneCondition item (.andNode []) = .ok true ∧
    evalOneCondition item (.orNode []) = .ok false := ⟨rfl, rfl, rfl, rfl⟩

/-- C9: whenever either record lacks an own property for the sort field,
compareValues declares the pair equal (returns 0), for every direction,
leaving the relative order to the stable sort. -/
theorem c9_missing_field_compares_equal (a b : Record) (f dir : String)
    (h : hasOwn a f = false ∨ hasOwn b f = false) :
    compareValues f dir a b = some 0 := by
  unfold compareValues
  rcases h with h | h <;> simp [h]

/-- C9 witness: a record without an age field compared against the
scenario record under descending order. -/
theorem c9_missing_field_compares_equal_witness :
    (hasOwn [("x", Value.vNum 1)] "age" = false ∨ hasOwn recId1 "age" = false) ∧
    compareValues "age" "desc" [("x", Value.vNum 1)] recId1 = some 0 :=
  ⟨Or.inl rfl, c9_missing_field_compares_equal [("x", Value.vNum 1)] recId1 "age" "desc" (Or.inl rfl)⟩

/-- C10: a statement whose action is "delete" and whose values are still
null -- exactly what delete().where(...) without bindValues builds --
makes execute throw the TypeError from reading this.values.id instead of
deleting the records matched by the conditions; and execute gives the
same result whatever the accumulated conditions are, for every action. -/
theorem c10_execute_delete_null_values (st : LocalStatement)
    (h1 : st.action = some "delete") (h2 : st.values = none) :
    execute st = .error valuesNullTypeError ∧
    ∀ (s : LocalStatement) (cs : List Cond),
      execute { s with conditions := cs } = execute s := by
  constructor
  · simp only [execute, h1, h2]
  · intro s cs
    rfl

/-- C10 witness: the concrete statement delete().where([["age", ">", 21]]). -/
theorem c10_execute_delete_null_values_witness :
    stmtDeleteWhere.action = some "delete" ∧ stmtDeleteWhere.values = none ∧
    (execute stmtDeleteWhere = .error valuesNullTypeError ∧
     ∀ (s : LocalStatement) (cs : List Cond),
       execute { s with conditions := cs } = execute s) :=
  ⟨rfl, rfl, c10_execute_delete_null_values stmtDeleteWhere rfl rfl⟩
